import Mathlib

/-!
Verification of the `updateTrackedBranch.py` notifier script.

The script's core is the request/poll state machine in `main`
(src/ci/updateTrackedBranch.py): it resolves a git ref to a commit value,
issues an initial HTTP notification with `trigger=true`, interprets the
response's status flags, and — for review-linked triggered updates — polls
the same endpoint until a terminal response or a wall-clock deadline.

Shallow embedding conventions:
* Time is measured in half-second units (one unit = 0.5 s), so the script's
  `connection_timeout = 5` seconds is 10 units and `update_timeout = 30`
  seconds is 60 units, and every `time.sleep(0.5)` advances time by 1 unit.
* The network is an environment: each HTTP request consumes one `Event`,
  carrying the request's duration and its result (a parsed JSON response,
  a `requests.exceptions.Timeout`, or some other exception such as an HTTP
  error status from `raise_for_status`).
* A JSON response is a `Response` structure: fields whose *presence* drives
  control flow (`"disabled" in data`, ...) are `Bool`, fields whose value is
  read (`data["review"]`, `data["update_successful"]`, ...) are `Option`,
  where `none` models the key being absent (so reading it raises `KeyError`).
* Console/log output is modelled as a list of `Line`s at message level
  (the `[critic]` prefixes, utf-8 encoding and `print_hook`'s separator
  framing are formatting glue; `Line.hook` carries the hook text verbatim).
* Raised exceptions that reach the top level make the run's `Outcome`
  `fatal`, which is a non-zero process exit.
-/

namespace UpdateTrackedBranch

/-- The script's `connection_timeout = 5` (seconds), source line 192. -/
def connection_timeout : Nat := 5

/-- The script's `update_timeout = 30` (seconds), source line 193. -/
def update_timeout : Nat := 30

/-- The connection timeout in half-second model units. -/
def connectionTimeoutU : Nat := 2 * connection_timeout

/-- The update timeout in half-second model units. -/
def updateTimeoutU : Nat := 2 * update_timeout

/-- The all-zero 40-character sentinel `"0" * 40` (source line 216). -/
def zeros40 : String := String.mk (List.replicate 40 '0')

/-- A parsed JSON response from the Critic endpoint.  Presence-driven keys
(`disabled`, `update_ongoing`, `update_pending`, `update_triggered`) are
booleans (`true` = key present); value-read keys are `Option`s (`none` =
key absent, so that reading the value raises `KeyError`). -/
structure Response where
  status : String
  error : Option String
  review : Option String
  branch : Option String
  disabled : Bool
  update_ongoing : Bool
  update_pending : Bool
  update_triggered : Bool
  hook_output : Option String
  update_successful : Option Bool
deriving Repr, DecidableEq

/-- The result of one HTTP POST: a parsed response body, a
`requests.exceptions.Timeout`, or any other exception (HTTP error status,
connection error, malformed JSON). -/
inductive NetResult where
  | resp (r : Response)
  | timeout
  | exc
deriving Repr, DecidableEq

/-- One network interaction offered by the environment: how long the request
took (in half-second units) and what it produced. -/
structure Event where
  dur : Nat
  result : NetResult
deriving Repr, DecidableEq

/-- The JSON payload built at the top of `issue_request` (source lines
226-231): `trigger` is the presence of the `"trigger"` key, included only on
the initial call. -/
structure RequestData where
  remote : String
  name : String
  value : String
  disable_remote_transform : Bool
  trigger : Bool
deriving Repr, DecidableEq

/-- The payload `issue_request` builds for given arguments (source lines
226-231). -/
def mkRequest (remote name value : String) (trigger : Bool) : RequestData :=
  ⟨remote, name, value, true, trigger⟩

/-- An exception escaping `issue_request`: a `requests.exceptions.Timeout`,
the `Exception("Request failed: " + data["error"])` raised on a non-ok
status, a `KeyError` from reading an absent key, or any other exception. -/
inductive ReqError where
  | timeout
  | statusError (msg : String)
  | keyError (key : String)
  | other
deriving Repr, DecidableEq

/-- One logged line, at message level.  `progress`, `error`, `hook` and the
debug variants correspond to `print_progress`, `print_error`, `print_hook`,
and `print_debug`/`print_debug_json` (source lines 110-133). -/
inductive Line where
  | progress (s : String)
  | error (s : String)
  | hook (s : String)
  | debugStr (s : String)
  | debugReq (d : RequestData)
  | debugResp (r : Response)
deriving Repr, DecidableEq

/-- The response-interpretation tail of `issue_request` (source lines
235-244): `raise_for_status` / JSON parsing failures are `.exc`; then
`if data["status"] != "ok": raise Exception("Request failed: " + data["error"])`.
Reading `data["error"]` on a response lacking the key raises `KeyError`. -/
def issue_request (res : NetResult) : Except ReqError Response :=
  match res with
  | .timeout => .error .timeout
  | .exc => .error .other
  | .resp r =>
    if r.status = "ok" then .ok r
    else
      match r.error with
      | some msg => .error (.statusError ("Request failed: " ++ msg))
      | none => .error (.keyError "error")

/-- How the polling phase ended. -/
inductive PollEnd where
  | hookReported
  | completedNoOutput
  | deadlineTimeout
  | fatal (e : ReqError)
  | envExhausted
deriving Repr, DecidableEq

/-- The message printed by the `while` loop's `else` branch (source 303). -/
def pollTimeoutLine : Line :=
  .progress "Timeout while waiting for update to complete."

/-- The polling `while` loop (source lines 279-303).  `dl` is the absolute
deadline `start + update_timeout`, `t` the current time; each iteration
consumes one environment event.  Returns the poll requests issued, the lines
logged, and how the loop ended.  `envExhausted` is a model artifact: the loop
wanted to issue another request but the finite environment had no event for
it (in reality every request yields some result, a timeout at worst). -/
def pollLoop (remote name value : String) (dl : Nat) :
    Nat → List Event → List RequestData × List Line × PollEnd
  | t, [] =>
    if t < dl then ([], [], .envExhausted)
    else ([], [pollTimeoutLine], .deadlineTimeout)
  | t, e :: rest =>
    if t < dl then
      let req := mkRequest remote name value false
      let dbg : List Line := [.debugReq req]
      let t1 := t + e.dur
      match issue_request e.result with
      | .error .timeout =>
        -- `except requests.exceptions.Timeout: continue` (source 282-286):
        -- no sleep, straight back to the loop condition.
        let k := pollLoop remote name value dl t1 rest
        (req :: k.1, dbg ++ k.2.1, k.2.2)
      | .error err =>
        -- any other exception propagates out of the loop
        ([req], dbg, .fatal err)
      | .ok r =>
        match r.hook_output with
        | some h =>
          match r.update_successful with
          | none =>
            -- `data["update_successful"]` raises KeyError (source 289)
            ([req], dbg, .fatal (.keyError "update_successful"))
          | some ok =>
            ([req],
             dbg ++ (if ok then [] else [.error "Critic rejected the update!"])
                 ++ [.hook h],
             .hookReported)
        | none =>
          if r.update_ongoing || r.update_pending then
            -- still ongoing/pending: sleep min(0.5, remaining) if remaining > 0
            let remaining := dl - t1
            let t2 := if 0 < remaining then t1 + min 1 remaining else t1
            let k := pollLoop remote name value dl t2 rest
            (req :: k.1, dbg ++ k.2.1, k.2.2)
          else
            ([req], dbg ++ [.progress "Update completed without output."],
             .completedNoOutput)
    else ([], [pollTimeoutLine], .deadlineTimeout)

/-- An environment event that cannot terminate the polling loop: either a
poll-request timeout, or an ok-status response with no `hook_output` that is
still `update_ongoing`/`update_pending`. -/
def nonTerminalEvent (e : Event) : Bool :=
  match e.result with
  | .timeout => true
  | .exc => false
  | .resp r =>
    r.status == "ok" && r.hook_output.isNone &&
      (r.update_ongoing || r.update_pending)

/-- The network environment for one run: the initial request's event and the
events available to the polling phase. -/
structure Env where
  initial : Event
  polls : List Event
deriving Repr, DecidableEq

/-- Whether the run's top level raised (`raise e`, source 308 — non-zero
process exit) or returned normally (zero exit).  `envExhausted` is the model
artifact propagated from `PollEnd.envExhausted`. -/
inductive Outcome where
  | success
  | fatal (e : ReqError)
  | envExhausted
deriving Repr, DecidableEq

/-- Everything observable about one run: the HTTP requests issued in order,
the lines logged, and the outcome. -/
structure RunResult where
  requests : List RequestData
  output : List Line
  outcome : Outcome
deriving Repr, DecidableEq

/-- The message `"Timeout (%ds) while notifying Critic!" % connection_timeout`
(source lines 249-250). -/
def initialTimeoutMsg : String :=
  "Timeout (" ++ toString connection_timeout ++ "s) while notifying Critic!"

/-- How a `PollEnd` maps to the run's outcome: exceptions escaping the poll
loop reach the outer `except` and are re-raised (source 304-308); every
other loop exit falls through to a normal (zero-exit) return. -/
def pollOutcome : PollEnd → Outcome
  | .fatal e => .fatal e
  | .envExhausted => .envExhausted
  | _ => .success

/-- The outer `except` clause's debug logging (source lines 304-306),
emitted only when an exception escaped the poll loop. -/
def pollExcLines : PollEnd → List Line
  | .fatal _ => [.debugStr "Exception:"]
  | _ => []

/-- The status-flag `if/elif` chain and the polling phase (source lines
263-303), reached after a `review` or `branch` header line was printed.
`out` is the output accumulated so far; `t1` is the time at which the
initial response arrived. -/
def handleFlags (repository_url ref value : String) (s : Nat) (polls : List Event)
    (req0 : RequestData) (out : List Line) (r : Response) (t1 : Nat) : RunResult :=
  if r.disabled then
    ⟨[req0], out ++ [.progress "Tracking is disabled!"], .success⟩
  else if r.update_ongoing then
    ⟨[req0], out ++ [.progress "Update already in progress."], .success⟩
  else if r.update_pending then
    ⟨[req0], out ++ [.progress "Update already scheduled."], .success⟩
  else if r.update_triggered then
    if r.review = none then
      ⟨[req0], out ++ [.progress "Update scheduled."], .success⟩
    else
      let out2 := out ++ [.progress "Update triggered; waiting for it to complete..."]
      let dl := s + updateTimeoutU
      -- `time.sleep(0.5)` before the loop (source 277)
      let k := pollLoop repository_url ref value dl (t1 + 1) polls
      ⟨req0 :: k.1, out2 ++ k.2.1 ++ pollExcLines k.2.2, pollOutcome k.2.2⟩
  else
    ⟨[req0], out, .success⟩

/-- Response handling after a successful initial request (source lines
253-303): debug-dump the response, print the `Review:`/`Tracked branch:`
header or `continue` with "Nothing to update!", then the flag chain. -/
def handleOk (repository_url ref value : String) (s : Nat) (polls : List Event)
    (req0 : RequestData) (dbg0 : List Line) (r : Response) (t1 : Nat) : RunResult :=
  let out1 := dbg0 ++ [Line.debugResp r]
  match r.review with
  | some rv =>
    handleFlags repository_url ref value s polls req0
      (out1 ++ [.progress ("Review: " ++ rv)]) r t1
  | none =>
    match r.branch with
    | some br =>
      handleFlags repository_url ref value s polls req0
        (out1 ++ [.progress ("Tracked branch: " ++ br)]) r t1
    | none => ⟨[req0], out1 ++ [.debugStr "Nothing to update!"], .success⟩

/-- The per-ref body of `main` (source lines 221-303), for the single
`(ref, value)` pair the script processes.  `s` is the wall-clock start time
(`start = time.time()`, source 222).  A `requests.exceptions.Timeout` on the
initial request prints the connection-timeout error and re-raises (source
246-251); the outer `except` logs and re-raises every exception (304-308),
making the run fatal. -/
def runMain (repository_url ref value : String) (s : Nat) (env : Env) : RunResult :=
  let req0 := mkRequest repository_url ref value true
  let dbg0 : List Line := [Line.debugReq req0]
  match issue_request env.initial.result with
  | .error .timeout =>
    ⟨[req0], dbg0 ++ [.error initialTimeoutMsg, .debugStr "Exception:"], .fatal .timeout⟩
  | .error e => ⟨[req0], dbg0 ++ [.debugStr "Exception:"], .fatal e⟩
  | .ok r =>
    handleOk repository_url ref value s env.polls req0 dbg0 r (s + env.initial.dur)

/-- Result of `subprocess.check_output(["git", "rev-parse", ref])`:
either its stdout, or a `CalledProcessError`. -/
inductive GitResult where
  | ok (out : String)
  | failed
deriving Repr, DecidableEq

/-- Python truthiness of `args.sha` (absent flag parses to `None`; an empty
string is falsy). -/
def shaTruthy : Option String → Bool
  | none => false
  | some s => !(s == "")

/-- Ref resolution (source lines 210-217): `if args.sha: value = args.sha`,
else `git rev-parse <ref>` stripped, with `CalledProcessError` mapped to the
all-zero sentinel.  The second component is model instrumentation recording
whether the local git tool was consulted. -/
def resolveRef (sha : Option String) (git : GitResult) : String × Bool :=
  if shaTruthy sha then (sha.getD "", false)
  else
    match git with
    | .ok out => (out.trim, true)
    | .failed => (zeros40, true)

/-- The whole run: resolve the ref's value, then drive the request/poll
state machine with it. -/
def fullRun (repository_url ref : String) (sha : Option String) (git : GitResult)
    (s : Nat) (env : Env) : RunResult :=
  runMain repository_url ref (resolveRef sha git).1 s env

/-!
### Structural lemmas about the state machine
-/


/-- Every request the polling loop issues is the fixed poll payload —
in particular none of them carries the `trigger` field. -/
theorem pollLoop_requests_eq (remote name value : String) (dl : Nat) :
    ∀ (t : Nat) (events : List Event) (q : RequestData),
      q ∈ (pollLoop remote name value dl t events).1 →
      q = mkRequest remote name value false := by
  intro t events
  induction events generalizing t with
  | nil =>
    intro q hq
    by_cases ht : t < dl <;> simp [pollLoop, ht] at hq
  | cons e rest ih =>
    intro q hq
    by_cases ht : t < dl
    · obtain ⟨dur, res⟩ := e
      cases res with
      | timeout =>
        simp [pollLoop, ht, issue_request] at hq
        rcases hq with h | h
        · exact h
        · exact ih _ _ h
      | exc =>
        simp [pollLoop, ht, issue_request] at hq
        exact hq
      | resp r =>
        by_cases hs : r.status = "ok"
        · cases hh : r.hook_output with
          | some hout =>
            cases hu : r.update_successful with
            | none =>
              simp [pollLoop, ht, issue_request, hs, hh, hu] at hq
              exact hq
            | some b =>
              simp [pollLoop, ht, issue_request, hs, hh, hu] at hq
              exact hq
          | none =>
            by_cases ho : (r.update_ongoing || r.update_pending) = true
            · simp [pollLoop, ht, issue_request, hs, hh, ho] at hq
              rcases hq with h | h
              · exact h
              · exact ih _ _ h
            · simp [pollLoop, ht, issue_request, hs, hh, ho] at hq
              exact hq
        · cases he : r.error with
          | some msg =>
            simp [pollLoop, ht, issue_request, hs, he] at hq
            exact hq
          | none =>
            simp [pollLoop, ht, issue_request, hs, he] at hq
            exact hq
    · simp [pollLoop, ht] at hq

theorem pollLoop_no_fatal_timeout (remote name value : String) (dl : Nat) :
    ∀ (t : Nat) (events : List Event),
      (pollLoop remote name value dl t events).2.2 ≠ .fatal .timeout := by
  intro t events
  induction events generalizing t with
  | nil =>
    intro h
    by_cases ht : t < dl <;> simp [pollLoop, ht] at h
  | cons e rest ih =>
    intro h
    by_cases ht : t < dl
    · obtain ⟨dur, res⟩ := e
      cases res with
      | timeout =>
        simp [pollLoop, ht, issue_request] at h
        exact ih _ h
      | exc => simp [pollLoop, ht, issue_request] at h
      | resp r =>
        by_cases hs : r.status = "ok"
        · cases hh : r.hook_output with
          | some hout =>
            cases hu : r.update_successful with
            | none => simp [pollLoop, ht, issue_request, hs, hh, hu] at h
            | some b => simp [pollLoop, ht, issue_request, hs, hh, hu] at h
          | none =>
            by_cases ho : (r.update_ongoing || r.update_pending) = true
            · simp [pollLoop, ht, issue_request, hs, hh, ho] at h
              exact ih _ h
            · simp [pollLoop, ht, issue_request, hs, hh, ho] at h
        · cases he : r.error with
          | some msg => simp [pollLoop, ht, issue_request, hs, he] at h
          | none => simp [pollLoop, ht, issue_request, hs, he] at h
    · simp [pollLoop, ht] at h

theorem pollLoop_nonTerminal_end (remote name value : String) (dl : Nat) :
    ∀ (t : Nat) (events : List Event),
      (∀ e ∈ events, nonTerminalEvent e = true) →
      (pollLoop remote name value dl t events).2.2 = .deadlineTimeout ∨
        (pollLoop remote name value dl t events).2.2 = .envExhausted := by
  intro t events
  induction events generalizing t with
  | nil =>
    intro _
    by_cases ht : t < dl <;> simp [pollLoop, ht]
  | cons e rest ih =>
    intro hnt
    have he : nonTerminalEvent e = true := hnt e (List.mem_cons_self e rest)
    have hrest : ∀ e ∈ rest, nonTerminalEvent e = true :=
      fun x hx => hnt x (List.mem_cons_of_mem e hx)
    by_cases ht : t < dl
    · obtain ⟨dur, res⟩ := e
      cases res with
      | timeout =>
        simpa [pollLoop, ht, issue_request] using ih _ hrest
      | exc => simp [nonTerminalEvent] at he
      | resp r =>
        simp [nonTerminalEvent] at he
        obtain ⟨⟨hs, hh⟩, ho⟩ := he
        have ho' : (r.update_ongoing || r.update_pending) = true := by
          rcases ho with ho | ho <;> simp [ho]
        simpa [pollLoop, ht, issue_request, hs, hh, ho'] using ih _ hrest
    · simp [pollLoop, ht]

theorem pollLoop_deadline_last (remote name value : String) (dl : Nat) :
    ∀ (t : Nat) (events : List Event),
      (pollLoop remote name value dl t events).2.2 = .deadlineTimeout →
      (pollLoop remote name value dl t events).2.1.getLast? = some pollTimeoutLine := by
  intro t events
  induction events generalizing t with
  | nil =>
    intro h
    by_cases ht : t < dl <;> simp [pollLoop, ht] at h ⊢
  | cons e rest ih =>
    intro h
    by_cases ht : t < dl
    · obtain ⟨dur, res⟩ := e
      cases res with
      | timeout =>
        simp only [pollLoop, ht, if_true, issue_request] at h ⊢
        have hl := ih _ h
        rw [← List.singleton_append, List.getLast?_append, hl]
        rfl
      | exc => simp [pollLoop, ht, issue_request] at h
      | resp r =>
        by_cases hs : r.status = "ok"
        · cases hh : r.hook_output with
          | some hout =>
            cases hu : r.update_successful with
            | none => simp [pollLoop, ht, issue_request, hs, hh, hu] at h
            | some b => simp [pollLoop, ht, issue_request, hs, hh, hu] at h
          | none =>
            by_cases ho : (r.update_ongoing || r.update_pending) = true
            · simp only [pollLoop, ht, if_true, issue_request, hs, hh, ho] at h ⊢
              have hl := ih _ h
              rw [List.getLast?_append, hl]
              rfl
            · simp [pollLoop, ht, issue_request, hs, hh, ho] at h
        · cases he : r.error with
          | some msg => simp [pollLoop, ht, issue_request, hs, he] at h
          | none => simp [pollLoop, ht, issue_request, hs, he] at h
    · simp [pollLoop, ht] at h ⊢

theorem pollLoop_cons_requests_ne_nil (remote name value : String) (dl t : Nat)
    (e : Event) (rest : List Event) (ht : t < dl) :
    (pollLoop remote name value dl t (e :: rest)).1 ≠ [] := by
  obtain ⟨dur, res⟩ := e
  cases res with
  | timeout => simp [pollLoop, ht, issue_request]
  | exc => simp [pollLoop, ht, issue_request]
  | resp r =>
    by_cases hs : r.status = "ok"
    · cases hh : r.hook_output with
      | some hout =>
        cases hu : r.update_successful with
        | none => simp [pollLoop, ht, issue_request, hs, hh, hu]
        | some b => simp [pollLoop, ht, issue_request, hs, hh, hu]
      | none =>
        by_cases ho : (r.update_ongoing || r.update_pending) = true
        · simp [pollLoop, ht, issue_request, hs, hh, ho]
        · simp [pollLoop, ht, issue_request, hs, hh, ho]
    · cases he : r.error with
      | some msg => simp [pollLoop, ht, issue_request, hs, he]
      | none => simp [pollLoop, ht, issue_request, hs, he]

theorem handleFlags_requests_head (repository_url ref value : String) (s : Nat)
    (polls : List Event) (req0 : RequestData) (out : List Line) (r : Response)
    (t1 : Nat) :
    (handleFlags repository_url ref value s polls req0 out r t1).requests.head? =
      some req0 := by
  unfold handleFlags
  repeat first | rfl | split

theorem handleOk_requests_head (repository_url ref value : String) (s : Nat)
    (polls : List Event) (req0 : RequestData) (dbg0 : List Line) (r : Response)
    (t1 : Nat) :
    (handleOk repository_url ref value s polls req0 dbg0 r t1).requests.head? =
      some req0 := by
  unfold handleOk
  rcases r.review with _ | rv
  · rcases r.branch with _ | br
    · rfl
    · exact handleFlags_requests_head ..
  · exact handleFlags_requests_head ..

theorem runMain_requests_head (repository_url ref value : String) (s : Nat)
    (env : Env) :
    (runMain repository_url ref value s env).requests.head? =
      some (mkRequest repository_url ref value true) := by
  unfold runMain
  rcases hres : issue_request env.initial.result with e | r
  · cases e <;> rfl
  · exact handleOk_requests_head ..

/-!
### The claims
-/


/-- C1: for every HTTP response whose `status` is not "ok" — initial or
poll — the run aborts with an error carrying the response's embedded `error`
message, no other response field is interpreted afterwards (the result is a
fixed record independent of `review`, `branch`, `disabled`,
`update_ongoing`, `update_pending`, `update_triggered`, `hook_output`), no
further request is issued, and the run is fatal (non-zero exit). -/
theorem c1_nonok_status_aborts :
    (∀ (repository_url ref value : String) (s : Nat) (env : Env) (r : Response)
       (msg : String),
       env.initial.result = .resp r → r.status ≠ "ok" → r.error = some msg →
       runMain repository_url ref value s env =
         ⟨[mkRequest repository_url ref value true],
          [.debugReq (mkRequest repository_url ref value true),
           .debugStr "Exception:"],
          .fatal (.statusError ("Request failed: " ++ msg))⟩) ∧
    (∀ (remote name value : String) (dl t d : Nat) (r : Response) (msg : String)
       (rest : List Event),
       t < dl → r.status ≠ "ok" → r.error = some msg →
       pollLoop remote name value dl t (⟨d, .resp r⟩ :: rest) =
         ([mkRequest remote name value false],
          [.debugReq (mkRequest remote name value false)],
          .fatal (.statusError ("Request failed: " ++ msg)))) := by
  constructor
  · intro repository_url ref value s env r msg h hs he
    simp [runMain, issue_request, h, hs, he]
  · intro remote name value dl t d r msg rest ht hs he
    simp [pollLoop, ht, issue_request, hs, he]

/-- C1 witness: a concrete non-ok initial response and a concrete non-ok
poll response, each aborting with the embedded message. -/
theorem c1_nonok_status_aborts_witness :
    runMain "u" "n" "v" 0
        ⟨⟨0, .resp ⟨"error", some "boom", some "R1", some "B1", true, true, true,
                    true, some "h", some true⟩⟩, []⟩ =
      ⟨[mkRequest "u" "n" "v" true],
       [.debugReq (mkRequest "u" "n" "v" true), .debugStr "Exception:"],
       .fatal (.statusError ("Request failed: " ++ "boom"))⟩ ∧
    pollLoop "u" "n" "v" 60 1 (⟨0, .resp ⟨"error", some "bad", none, none, false,
        false, false, false, none, none⟩⟩ :: []) =
      ([mkRequest "u" "n" "v" false],
       [.debugReq (mkRequest "u" "n" "v" false)],
       .fatal (.statusError ("Request failed: " ++ "bad"))) :=
  ⟨c1_nonok_status_aborts.1 "u" "n" "v" 0 _ _ "boom" rfl (by decide) rfl,
   c1_nonok_status_aborts.2 "u" "n" "v" 60 1 0 _ "bad" [] (by decide) (by decide) rfl⟩

/-- C6: a `requests.exceptions.Timeout` on the initial (trigger) request
makes the run report the connection-timeout error message and re-raise, so
the whole run is fatal (non-zero exit). -/
theorem c6_initial_timeout_fatal (repository_url ref value : String) (s : Nat)
    (env : Env) (h : env.initial.result = .timeout) :
    runMain repository_url ref value s env =
      ⟨[mkRequest repository_url ref value true],
       [.debugReq (mkRequest repository_url ref value true),
        .error "Timeout (5s) while notifying Critic!", .debugStr "Exception:"],
       .fatal .timeout⟩ := by
  have : initialTimeoutMsg = "Timeout (5s) while notifying Critic!" := rfl
  simp [runMain, issue_request, h, this]

/-- C6 witness. -/
theorem c6_initial_timeout_fatal_witness :
    runMain "u" "n" "v" 0 ⟨⟨11, .timeout⟩, []⟩ =
      ⟨[mkRequest "u" "n" "v" true],
       [.debugReq (mkRequest "u" "n" "v" true),
        .error "Timeout (5s) while notifying Critic!", .debugStr "Exception:"],
       .fatal .timeout⟩ :=
  c6_initial_timeout_fatal "u" "n" "v" 0 ⟨⟨11, .timeout⟩, []⟩ rfl

/-- C7: an ok initial response with neither `review` nor `branch` — whatever
its other fields hold — ends the run successfully with the
"Nothing to update!" message and no further HTTP request. -/
theorem c7_nothing_to_update (repository_url ref value : String) (s : Nat)
    (env : Env) (r : Response) (h : env.initial.result = .resp r)
    (hs : r.status = "ok") (hr : r.review = none) (hb : r.branch = none) :
    runMain repository_url ref value s env =
      ⟨[mkRequest repository_url ref value true],
       [.debugReq (mkRequest repository_url ref value true), .debugResp r,
        .debugStr "Nothing to update!"],
       .success⟩ := by
  simp [runMain, handleOk, issue_request, h, hs, hr, hb]

/-- C7 witness: a response with every flag set but no `review`/`branch`. -/
theorem c7_nothing_to_update_witness :
    runMain "u" "n" "v" 0
        ⟨⟨0, .resp ⟨"ok", none, none, none, true, true, true, true, some "h",
                    some false⟩⟩, [⟨0, .timeout⟩]⟩ =
      ⟨[mkRequest "u" "n" "v" true],
       [.debugReq (mkRequest "u" "n" "v" true),
        .debugResp ⟨"ok", none, none, none, true, true, true, true, some "h",
                    some false⟩,
        .debugStr "Nothing to update!"],
       .success⟩ :=
  c7_nothing_to_update "u" "n" "v" 0 _ _ rfl rfl rfl rfl

/-- C8: with no explicit commit value and a failing local `git rev-parse`,
the resolved value is the 40-character all-zero sentinel and the run still
proceeds to issue its initial request with that value. -/
theorem c8_resolution_failure_sentinel (repository_url ref : String) (s : Nat)
    (env : Env) :
    resolveRef none .failed = (zeros40, true) ∧
    (fullRun repository_url ref none .failed s env).requests.head? =
      some (mkRequest repository_url ref zeros40 true) :=
  ⟨rfl, runMain_requests_head ..⟩

/-- C9 counterexample: supplying the explicit (empty) commit value `""` on
the command line does not make `RefUpdate.value` that literal value, and the
local git tool is consulted anyway — Python truthiness of `args.sha`
(source line 211) ignores an empty explicit value. -/
theorem c9_counterexample :
    resolveRef (some "") GitResult.failed ≠ ("", false) ∧
    (resolveRef (some "") GitResult.failed).2 = true := by
  constructor
  · decide
  · rfl

/-- C9 (amended): for every run where a *non-empty* explicit commit value is
supplied on the command line, `RefUpdate.value` equals that literal value
verbatim, the local git tool is not consulted, and the initial request
carries that value, regardless of local repository state. -/
theorem c9_explicit_sha_verbatim (v : String) (git : GitResult) (hv : v ≠ "")
    (repository_url ref : String) (s : Nat) (env : Env) :
    resolveRef (some v) git = (v, false) ∧
    (fullRun repository_url ref (some v) git s env).requests.head? =
      some (mkRequest repository_url ref v true) := by
  have hres : resolveRef (some v) git = (v, false) := by
    simp [resolveRef, shaTruthy, hv]
  refine ⟨hres, ?_⟩
  show (runMain repository_url ref (resolveRef (some v) git).1 s env).requests.head? = _
  rw [hres]
  exact runMain_requests_head ..

/-- C9 witness: `--sha abc` with a failing local git. -/
theorem c9_explicit_sha_verbatim_witness :
    resolveRef (some "abc") GitResult.failed = ("abc", false) ∧
    (fullRun "u" "r" (some "abc") GitResult.failed 0
        ⟨⟨0, .timeout⟩, []⟩).requests.head? =
      some (mkRequest "u" "r" "abc" true) :=
  c9_explicit_sha_verbatim "abc" GitResult.failed (by decide) "u" "r" 0
    ⟨⟨0, .timeout⟩, []⟩


/-- C2: on an initial ok response containing `review` or `branch`, the
status flags are interpreted with precedence `disabled` >
`update_ongoing` > `update_pending` > `update_triggered`, each earlier flag
reporting its message and stopping with no polling; and `update_triggered`
without `review` reports "Update scheduled." and stops without entering the
polling phase. -/
theorem c2_flag_precedence :
    (∀ (repository_url ref value : String) (s : Nat) (env : Env) (r : Response),
       env.initial.result = .resp r → r.status = "ok" →
       (r.review.isSome ∨ r.branch.isSome) → r.disabled = true →
       (runMain repository_url ref value s env).outcome = .success ∧
       (runMain repository_url ref value s env).requests =
         [mkRequest repository_url ref value true] ∧
       (runMain repository_url ref value s env).output.getLast? =
         some (.progress "Tracking is disabled!")) ∧
    (∀ (repository_url ref value : String) (s : Nat) (env : Env) (r : Response),
       env.initial.result = .resp r → r.status = "ok" →
       (r.review.isSome ∨ r.branch.isSome) → r.disabled = false →
       r.update_ongoing = true →
       (runMain repository_url ref value s env).outcome = .success ∧
       (runMain repository_url ref value s env).requests =
         [mkRequest repository_url ref value true] ∧
       (runMain repository_url ref value s env).output.getLast? =
         some (.progress "Update already in progress.")) ∧
    (∀ (repository_url ref value : String) (s : Nat) (env : Env) (r : Response),
       env.initial.result = .resp r → r.status = "ok" →
       (r.review.isSome ∨ r.branch.isSome) → r.disabled = false →
       r.update_ongoing = false → r.update_pending = true →
       (runMain repository_url ref value s env).outcome = .success ∧
       (runMain repository_url ref value s env).requests =
         [mkRequest repository_url ref value true] ∧
       (runMain repository_url ref value s env).output.getLast? =
         some (.progress "Update already scheduled.")) ∧
    (∀ (repository_url ref value : String) (s : Nat) (env : Env) (r : Response)
       (br : String),
       env.initial.result = .resp r → r.status = "ok" →
       r.review = none → r.branch = some br → r.disabled = false →
       r.update_ongoing = false → r.update_pending = false →
       r.update_triggered = true →
       (runMain repository_url ref value s env).outcome = .success ∧
       (runMain repository_url ref value s env).requests =
         [mkRequest repository_url ref value true] ∧
       (runMain repository_url ref value s env).output.getLast? =
         some (.progress "Update scheduled.")) := by
  refine ⟨?_, ?_, ?_, ?_⟩
  · intro repository_url ref value s env r h hs hrb hd
    rcases hr : r.review with _ | rv
    · rcases hb : r.branch with _ | br
      · rw [hr, hb] at hrb
        simp at hrb
      · refine ⟨?_, ?_, ?_⟩ <;>
          simp [runMain, handleOk, handleFlags, issue_request, h, hs, hr, hb, hd]
    · refine ⟨?_, ?_, ?_⟩ <;>
        simp [runMain, handleOk, handleFlags, issue_request, h, hs, hr, hd]
  · intro repository_url ref value s env r h hs hrb hd ho
    rcases hr : r.review with _ | rv
    · rcases hb : r.branch with _ | br
      · rw [hr, hb] at hrb
        simp at hrb
      · refine ⟨?_, ?_, ?_⟩ <;>
          simp [runMain, handleOk, handleFlags, issue_request, h, hs, hr, hb, hd, ho]
    · refine ⟨?_, ?_, ?_⟩ <;>
        simp [runMain, handleOk, handleFlags, issue_request, h, hs, hr, hd, ho]
  · intro repository_url ref value s env r h hs hrb hd ho hp
    rcases hr : r.review with _ | rv
    · rcases hb : r.branch with _ | br
      · rw [hr, hb] at hrb
        simp at hrb
      · refine ⟨?_, ?_, ?_⟩ <;>
          simp [runMain, handleOk, handleFlags, issue_request, h, hs, hr, hb, hd, ho, hp]
    · refine ⟨?_, ?_, ?_⟩ <;>
        simp [runMain, handleOk, handleFlags, issue_request, h, hs, hr, hd, ho, hp]
  · intro repository_url ref value s env r br h hs hr hb hd ho hp htr
    refine ⟨?_, ?_, ?_⟩ <;>
      simp [runMain, handleOk, handleFlags, issue_request, h, hs, hr, hb, hd, ho, hp, htr]

/-- C2 witness: a disabled response carrying every other flag too, and a
triggered branch-only response that stops before polling. -/
theorem c2_flag_precedence_witness :
    ((runMain "u" "n" "v" 0
        ⟨⟨0, .resp ⟨"ok", none, some "R1", some "B1", true, true, true, true,
                    none, none⟩⟩, [⟨0, .timeout⟩]⟩).output.getLast? =
      some (.progress "Tracking is disabled!")) ∧
    ((runMain "u" "n" "v" 0
        ⟨⟨0, .resp ⟨"ok", none, none, some "B1", false, false, false, true,
                    none, none⟩⟩, [⟨0, .timeout⟩]⟩).requests =
      [mkRequest "u" "n" "v" true]) :=
  ⟨(c2_flag_precedence.1 "u" "n" "v" 0 _ _ rfl rfl (by decide) rfl).2.2,
   (c2_flag_precedence.2.2.2 "u" "n" "v" 0 _ _ "B1" rfl rfl rfl rfl rfl rfl rfl
      rfl).2.1⟩

/-- C3: an ok initial response with both `update_triggered` and `review`
(and no earlier flag) makes the program issue at least one follow-up poll
request, and every follow-up request lacks the `trigger` field. -/
theorem c3_triggered_review_polls (repository_url ref value : String) (s : Nat)
    (env : Env) (r : Response) (rv : String)
    (h : env.initial.result = .resp r) (hs : r.status = "ok")
    (hr : r.review = some rv) (hd : r.disabled = false)
    (ho : r.update_ongoing = false) (hp : r.update_pending = false)
    (htr : r.update_triggered = true)
    (hdur : env.initial.dur ≤ connectionTimeoutU + 1)
    (hpolls : env.polls ≠ []) :
    2 ≤ (runMain repository_url ref value s env).requests.length ∧
    ∀ q ∈ (runMain repository_url ref value s env).requests.tail,
      q.trigger = false := by
  have ht : s + env.initial.dur + 1 < s + updateTimeoutU := by
    have h10 : connectionTimeoutU = 10 := rfl
    have h60 : updateTimeoutU = 60 := rfl
    omega
  have hreq : (runMain repository_url ref value s env).requests =
      mkRequest repository_url ref value true ::
        (pollLoop repository_url ref value (s + updateTimeoutU)
          (s + env.initial.dur + 1) env.polls).1 := by
    simp [runMain, handleOk, handleFlags, issue_request, h, hs, hr, hd, ho, hp,
      htr]
  constructor
  · rw [hreq]
    obtain ⟨p, ps, hpp⟩ : ∃ p ps, env.polls = p :: ps := by
      cases hcc : env.polls with
      | nil => exact absurd hcc hpolls
      | cons p ps => exact ⟨p, ps, rfl⟩
    rw [hpp]
    have hne := pollLoop_cons_requests_ne_nil repository_url ref value
      (s + updateTimeoutU) (s + env.initial.dur + 1) p ps ht
    have hpos := List.length_pos.mpr hne
    simp only [List.length_cons]
    omega
  · intro q hq
    rw [hreq] at hq
    simp only [List.tail_cons] at hq
    have := pollLoop_requests_eq repository_url ref value (s + updateTimeoutU)
      (s + env.initial.dur + 1) env.polls q hq
    rw [this]
    rfl

/-- C3 witness. -/
theorem c3_triggered_review_polls_witness :
    2 ≤ (runMain "u" "n" "v" 0
        ⟨⟨0, .resp ⟨"ok", none, some "R1", none, false, false, false, true,
                    none, none⟩⟩, [⟨59, .timeout⟩]⟩).requests.length ∧
    ∀ q ∈ (runMain "u" "n" "v" 0
        ⟨⟨0, .resp ⟨"ok", none, some "R1", none, false, false, false, true,
                    none, none⟩⟩, [⟨59, .timeout⟩]⟩).requests.tail,
      q.trigger = false :=
  c3_triggered_review_polls "u" "n" "v" 0 _ _ "R1" rfl rfl rfl rfl rfl rfl rfl
    (by decide) (by decide)

/-- C5: a poll response carrying `hook_output` (with `update_successful`
present) ends the polling phase at that response: exactly that one poll
request is issued no matter what events follow, the hook text is reported
verbatim, and when `update_successful` is false the
"Critic rejected the update!" error line precedes the hook block. -/
theorem c5_hook_output_terminal (remote name value : String) (dl t d : Nat)
    (r : Response) (h : String) (b : Bool) (rest : List Event)
    (ht : t < dl) (hs : r.status = "ok") (hh : r.hook_output = some h)
    (hu : r.update_successful = some b) :
    pollLoop remote name value dl t (⟨d, .resp r⟩ :: rest) =
      ([mkRequest remote name value false],
       .debugReq (mkRequest remote name value false) ::
         ((if b then [] else [.error "Critic rejected the update!"]) ++
           [.hook h]),
       .hookReported) := by
  simp [pollLoop, ht, issue_request, hs, hh, hu]

/-- C5 witness: a rejected update — the error line precedes the verbatim
hook block, and the later environment event is never consumed. -/
theorem c5_hook_output_terminal_witness :
    pollLoop "u" "n" "v" 60 1
        (⟨0, .resp ⟨"ok", none, some "R1", none, false, false, false, false,
                    some "line1\nline2", some false⟩⟩ :: [⟨0, .timeout⟩]) =
      ([mkRequest "u" "n" "v" false],
       .debugReq (mkRequest "u" "n" "v" false) ::
         ((if false then [] else [.error "Critic rejected the update!"]) ++
           [.hook "line1\nline2"]),
       .hookReported) :=
  c5_hook_output_terminal "u" "n" "v" 60 1 0 _ "line1\nline2" false
    [⟨0, .timeout⟩] (by decide) rfl rfl rfl

/-- C10: a poll response carrying `hook_output` but lacking the
`update_successful` key does not get its hook output reported: reading the
missing key is a `KeyError` that escapes the loop and makes the whole run
fatal (non-zero exit), with no hook line ever logged. -/
theorem c10_missing_update_successful (repository_url ref value : String)
    (s : Nat) (env : Env) (r0 r : Response) (rv h : String) (d : Nat)
    (rest : List Event)
    (h0 : env.initial.result = .resp r0) (hs0 : r0.status = "ok")
    (hr0 : r0.review = some rv) (hd0 : r0.disabled = false)
    (ho0 : r0.update_ongoing = false) (hp0 : r0.update_pending = false)
    (htr0 : r0.update_triggered = true)
    (hdur : env.initial.dur ≤ connectionTimeoutU + 1)
    (hpolls : env.polls = ⟨d, .resp r⟩ :: rest)
    (hs : r.status = "ok") (hh : r.hook_output = some h)
    (hu : r.update_successful = none) :
    (runMain repository_url ref value s env).outcome =
      .fatal (.keyError "update_successful") ∧
    ∀ m, Line.hook m ∉ (runMain repository_url ref value s env).output := by
  have ht : s + env.initial.dur + 1 < s + updateTimeoutU := by
    have h10 : connectionTimeoutU = 10 := rfl
    have h60 : updateTimeoutU = 60 := rfl
    omega
  have hpl : pollLoop repository_url ref value (s + updateTimeoutU)
      (s + env.initial.dur + 1) env.polls =
      ([mkRequest repository_url ref value false],
       [.debugReq (mkRequest repository_url ref value false)],
       .fatal (.keyError "update_successful")) := by
    rw [hpolls]
    simp [pollLoop, ht, issue_request, hs, hh, hu]
  have hrun : runMain repository_url ref value s env =
      ⟨[mkRequest repository_url ref value true,
        mkRequest repository_url ref value false],
       [.debugReq (mkRequest repository_url ref value true), .debugResp r0,
        .progress ("Review: " ++ rv),
        .progress "Update triggered; waiting for it to complete...",
        .debugReq (mkRequest repository_url ref value false),
        .debugStr "Exception:"],
       .fatal (.keyError "update_successful")⟩ := by
    simp [runMain, handleOk, handleFlags, issue_request, h0, hs0, hr0, hd0,
      ho0, hp0, htr0, hpl, pollOutcome, pollExcLines]
  rw [hrun]
  refine ⟨rfl, ?_⟩
  intro m
  simp

/-- C10 witness. -/
theorem c10_missing_update_successful_witness :
    (runMain "u" "n" "v" 0
        ⟨⟨0, .resp ⟨"ok", none, some "R1", none, false, false, false, true,
                    none, none⟩⟩,
         [⟨0, .resp ⟨"ok", none, none, none, false, false, false, false,
                     some "hook text", none⟩⟩]⟩).outcome =
      .fatal (.keyError "update_successful") ∧
    ∀ m, Line.hook m ∉ (runMain "u" "n" "v" 0
        ⟨⟨0, .resp ⟨"ok", none, some "R1", none, false, false, false, true,
                    none, none⟩⟩,
         [⟨0, .resp ⟨"ok", none, none, none, false, false, false, false,
                     some "hook text", none⟩⟩]⟩).output :=
  c10_missing_update_successful "u" "n" "v" 0 _ _ _ "R1" "hook text" 0 []
    rfl rfl rfl rfl rfl rfl rfl (by decide) rfl rfl rfl rfl

/-- C4: a timeout on an individual poll request never by itself aborts the
run — the polling loop can never end `fatal timeout` — and when every
available poll event is non-terminal (so the deadline passes without a
terminal response) the run logs "Timeout while waiting for update to
complete." as its final line and still exits successfully. -/
theorem c4_poll_timeout_nonfatal :
    (∀ (remote name value : String) (dl t : Nat) (events : List Event),
       (pollLoop remote name value dl t events).2.2 ≠ .fatal .timeout) ∧
    (∀ (repository_url ref value : String) (s : Nat) (env : Env)
       (r : Response) (rv : String),
       env.initial.result = .resp r → r.status = "ok" → r.review = some rv →
       r.disabled = false → r.update_ongoing = false →
       r.update_pending = false → r.update_triggered = true →
       (∀ e ∈ env.polls, nonTerminalEvent e = true) →
       (runMain repository_url ref value s env).outcome ≠ .envExhausted →
       (runMain repository_url ref value s env).outcome = .success ∧
       (runMain repository_url ref value s env).output.getLast? =
         some pollTimeoutLine) := by
  constructor
  · intro remote name value dl t events
    exact pollLoop_no_fatal_timeout remote name value dl t events
  · intro repository_url ref value s env r rv h hs hr hd ho hp htr hnt hne
    have hout : (runMain repository_url ref value s env).outcome =
        pollOutcome (pollLoop repository_url ref value (s + updateTimeoutU)
          (s + env.initial.dur + 1) env.polls).2.2 := by
      simp [runMain, handleOk, handleFlags, issue_request, h, hs, hr, hd, ho,
        hp, htr]
    have houtp : (runMain repository_url ref value s env).output =
        ([.debugReq (mkRequest repository_url ref value true), .debugResp r,
          .progress ("Review: " ++ rv),
          .progress "Update triggered; waiting for it to complete..."] ++
         (pollLoop repository_url ref value (s + updateTimeoutU)
           (s + env.initial.dur + 1) env.polls).2.1) ++
        pollExcLines (pollLoop repository_url ref value (s + updateTimeoutU)
          (s + env.initial.dur + 1) env.polls).2.2 := by
      simp [runMain, handleOk, handleFlags, issue_request, h, hs, hr, hd, ho,
        hp, htr]
    rcases pollLoop_nonTerminal_end repository_url ref value
        (s + updateTimeoutU) (s + env.initial.dur + 1) env.polls hnt with
      hfin | hfin
    · constructor
      · rw [hout, hfin]
        rfl
      · rw [houtp, hfin]
        have hl := pollLoop_deadline_last repository_url ref value
          (s + updateTimeoutU) (s + env.initial.dur + 1) env.polls hfin
        rw [show pollExcLines PollEnd.deadlineTimeout = ([] : List Line) from
          rfl]
        rw [List.append_nil, List.getLast?_append, hl]
        rfl
    · exact absurd (by rw [hout, hfin]; rfl) hne

/-- C4 witness: a single poll timeout that uses up the whole budget — the
run still succeeds, ending with the poll-timeout progress line. -/
theorem c4_poll_timeout_nonfatal_witness :
    (runMain "u" "n" "v" 0
        ⟨⟨0, .resp ⟨"ok", none, some "R1", none, false, false, false, true,
                    none, none⟩⟩, [⟨59, .timeout⟩]⟩).outcome = .success ∧
    (runMain "u" "n" "v" 0
        ⟨⟨0, .resp ⟨"ok", none, some "R1", none, false, false, false, true,
                    none, none⟩⟩, [⟨59, .timeout⟩]⟩).output.getLast? =
      some pollTimeoutLine :=
  c4_poll_timeout_nonfatal.2 "u" "n" "v" 0 _ _ "R1" rfl rfl rfl rfl rfl rfl
    rfl (by decide) (by decide)

end UpdateTrackedBranch
